import Mathlib

/-!
Verification of the chat command dispatch & rate-limiting engine of the
mine-13-zoom/bridge repository.

The definitions below are a shallow embedding of the TypeScript source:

* `src/extensions/hypixel-stats/index.ts` — `HypixelStatsExtension`
  (`isOnCooldown`, `setCooldown`, `getCachedData`, `setCachedData`,
  `generateCacheKey`, `handleFetchError`, `createStatsHandler`);
* `src/extensions/urchin-blacklist/index.ts` — `UrchinBlacklistExtension`
  (`isOnCooldown`, `handleViewCommand`);
* the `FunBotExtension` (`isOnCooldown`, `sendResponse`);
* the `OnlinePlayersTracker` (`updateOnlinePlayers`).

JavaScript numbers are modelled as `Int` (all values involved are integers),
maps as functions into `Option`, sets as boolean-valued functions, and
JavaScript truthiness is made explicit where the source relies on it
(`rankCooldowns[guildRank]`, `lastRun &&`, empty-string falsiness).
Asynchronous external calls (HTTP fetches) are modelled by oracle values
describing their outcome, and `Date.now()` readings are explicit parameters.
-/

/-- Model of `Char` lowering as performed by JavaScript
`String.prototype.toLowerCase()` on the ASCII range (all rank labels and
keywords in the source are ASCII). -/
def jsCharToLower (c : Char) : Char :=
  if 'A' ≤ c ∧ c ≤ 'Z' then Char.ofNat (c.toNat + 32) else c

/-- Model of `String.prototype.toLowerCase()` (ASCII range). -/
def jsToLower (s : String) : String :=
  ⟨s.data.map jsCharToLower⟩

/-- `pat` occurs at the start of `s` (character lists). -/
def charsHasPre : List Char → List Char → Bool
  | [], _ => true
  | _ :: _, [] => false
  | p :: ps, c :: cs => p == c && charsHasPre ps cs

/-- `pat` occurs somewhere inside `s` (character lists). -/
def charsContains (s pat : List Char) : Bool :=
  match s with
  | [] => pat.isEmpty
  | _ :: rest => charsHasPre pat s || charsContains rest pat

/-- Model of JavaScript `String.prototype.includes(pat)`. -/
def strIncludes (s pat : String) : Bool :=
  charsContains s.data pat.data

/-- Lookup of `table[key]` on a rank-cooldown record, modelled as an
association list (`Record<string, number>` with exact string keys). -/
def lookupRank : List (String × Nat) → String → Option Nat
  | [], _ => none
  | (k, v) :: rest, key => if k = key then some v else lookupRank rest key

/-- The `defaultConfig.guildRankCooldowns` table of
`src/extensions/hypixel-stats/index.ts` (lines 72–78). -/
def hypixelGuildRankCooldowns : List (String × Nat) :=
  [("Guild Master", 0), ("Leader", 0), ("Moderator", 0), ("Elite", 30), ("Member", 45)]

/-- The `fallbackDefaults.guildRankCooldowns` table of `FunBotExtension`. -/
def funBotGuildRankCooldowns : List (String × Nat) :=
  [("GM", 0), ("Leader", 10), ("SBMAIN", 12), ("Elite", 15), ("Mod", 20), ("Member", 60)]

/-- The keyword-substring fallback of `isOnCooldown` (the `else if (guildRank)`
chain): case-insensitive substring tests, in source order, each branch reading
the corresponding table entry (which may be absent, i.e. `undefined`).
`gmKey` is the table key used by the first branch: `'Guild Master'` in
`HypixelStatsExtension.isOnCooldown`, `'GM'` in `FunBotExtension.isOnCooldown`;
the two methods are otherwise identical. -/
def keywordCooldown (gmKey : String) (t : List (String × Nat)) (r : String) : Option Nat :=
  let l := jsToLower r
  if strIncludes l "guild master" || strIncludes l "guildmaster" || strIncludes l "gm" then
    lookupRank t gmKey
  else if strIncludes l "leader" then lookupRank t "Leader"
  else if strIncludes l "moderator" || strIncludes l "mod" then lookupRank t "Moderator"
  else if strIncludes l "elite" then lookupRank t "Elite"
  else if strIncludes l "member" then lookupRank t "Member"
  else none

/-- The rank-resolution part of `isOnCooldown` (hypixel-stats lines 595–619):
the value `cooldownSeconds` holds when reaching line 621, `none` meaning
`undefined`.  `if (guildRank && rankCooldowns[guildRank])` is JavaScript
truthiness: the exact-match branch is taken only for a non-empty label whose
exact table entry is present and non-zero; otherwise the keyword chain runs,
and an `undefined` outcome falls back to the `'Member'` entry. -/
def resolveCooldownSeconds (gmKey : String) (t : List (String × Nat))
    (guildRank : Option String) : Option Nat :=
  let viaRank : Option Nat :=
    match guildRank with
    | none => none
    | some r =>
      if r = "" then none
      else
        match lookupRank t r with
        | some v => if v ≠ 0 then some v else keywordCooldown gmKey t r
        | none => keywordCooldown gmKey t r
  match viaRank with
  | some v => some v
  | none => lookupRank t "Member"

/-- `Math.ceil(a / b)` on integer operands (`b > 0`), as real division
followed by ceiling.  `Int.fdiv` is floor division, and
`⌈a / b⌉ = -⌊-a / b⌋`. -/
def jsCeilDiv (a b : Int) : Int := -(Int.fdiv (-a) b)

/-- `HypixelStatsExtension.isOnCooldown` (lines 589–633) and
`FunBotExtension.isOnCooldown` (identical shape, `gmKey := "GM"` and its own
table).  `cooldowns` is the `Map<string, number>` of last invocation times.
A resolved cooldown of `0` returns `null` (line 622); an `undefined`
resolved cooldown makes `cooldownTime` NaN so both comparisons fail and the
result is `null`; `if (lastRun && …)` is truthiness, so a recorded `0`
timestamp behaves as no record. -/
def isOnCooldown (gmKey : String) (t : List (String × Nat))
    (cooldowns : String → Option Int) (playerName : String)
    (guildRank : Option String) (now : Int) : Option Int :=
  match resolveCooldownSeconds gmKey t guildRank with
  | none => none
  | some cs =>
    if cs = 0 then none
    else
      let cooldownTime : Int := (cs : Int) * 1000
      match cooldowns playerName with
      | none => none
      | some lastRun =>
        if lastRun ≠ 0 ∧ now - lastRun < cooldownTime then
          some (jsCeilDiv (cooldownTime - (now - lastRun)) 1000)
        else none

/-- `setCooldown` (hypixel-stats lines 638–640): `cooldowns.set(player, now)`. -/
def setCooldown (cooldowns : String → Option Int) (playerName : String) (now : Int) :
    String → Option Int :=
  fun k => if k = playerName then some now else cooldowns k

example : resolveCooldownSeconds "Guild Master" hypixelGuildRankCooldowns (some "Elite") = some 30 := by
  decide

example : resolveCooldownSeconds "Guild Master" hypixelGuildRankCooldowns (some "Guild Master") = some 0 := by
  decide

example : resolveCooldownSeconds "Guild Master" hypixelGuildRankCooldowns (some "[Elite]") = some 30 := by
  decide

example : resolveCooldownSeconds "Guild Master" hypixelGuildRankCooldowns (some "randomguy") = some 45 := by
  decide

example : resolveCooldownSeconds "GM" funBotGuildRankCooldowns (some "GM") = some 0 := by
  decide

example : resolveCooldownSeconds "GM" funBotGuildRankCooldowns (some "Moderator") = some 60 := by
  decide

example :
    isOnCooldown "Guild Master" hypixelGuildRankCooldowns
      (fun u => if u = "Alice" then some 1000 else none) "Alice" (some "Member") 2000 = some 44 := by
  decide

/-! ### LookupCache: `getCachedData` / `setCachedData` (hypixel-stats lines 700–743) -/

/-- A `CacheEntry` (hypixel-stats lines 36–40). -/
structure CacheEntry (α : Type) where
  data : α
  timestamp : Int
  expiresAt : Int
  deriving DecidableEq, Repr

/-- `defaultConfig.cacheExpiryTime` (line 70): 15 minutes in milliseconds. -/
def cacheExpiryTime : Int := 15 * 60 * 1000

/-- `getCachedData` (lines 700–717): returns the (possibly shrunk) cache and
the read result.  A present entry with `now >= entry.expiresAt` is deleted and
`null` is returned; otherwise `entry.data` is returned unchanged. -/
def getCachedData {α : Type} (cache : String → Option (CacheEntry α)) (key : String)
    (now : Int) : (String → Option (CacheEntry α)) × Option α :=
  match cache key with
  | none => (cache, none)
  | some entry =>
    if now ≥ entry.expiresAt then
      (fun k => if k = key then none else cache k, none)
    else
      (cache, some entry.data)

/-- `setCachedData` (lines 722–735): overwrites the key with
`{ data, timestamp: now, expiresAt: now + ttl }` (`ttl` is
`config.cacheExpiryTime`). -/
def setCachedData {α : Type} (cache : String → Option (CacheEntry α)) (key : String)
    (data : α) (now ttl : Int) : String → Option (CacheEntry α) :=
  fun k => if k = key then some ⟨data, now, now + ttl⟩ else cache k

/-- `generateCacheKey` (lines 740–743), without the unused `extra` argument:
`"<type>:<identifier.toLowerCase()>"`. -/
def generateCacheKey (ty identifier : String) : String :=
  ty ++ ":" ++ jsToLower identifier

/-! ### Arithmetic helper lemmas -/

/-- `jsCeilDiv` agrees with the real ceiling `⌈a / b⌉` for positive divisors. -/
theorem jsCeilDiv_eq_ceil (a : Int) (b : ℕ) (hb : 0 < b) :
    jsCeilDiv a b = ⌈(a : ℚ) / (b : ℚ)⌉ := by
  have h0 : (0 : Int) ≤ (b : Int) := by positivity
  rw [jsCeilDiv, Int.fdiv_eq_ediv _ h0]
  rw [show ((a : ℚ) / (b : ℚ)) = -(((-a : Int) : ℚ) / ((b : ℕ) : ℚ)) by push_cast; ring]
  rw [Int.ceil_neg, Rat.floor_intCast_div_natCast]

/-- Specialization to the divisor `1000` used throughout the source. -/
theorem jsCeilDiv_1000 (a : Int) : jsCeilDiv a 1000 = ⌈(a : ℚ) / 1000⌉ := by
  have h := jsCeilDiv_eq_ceil a 1000 (by norm_num)
  simpa using h

/-! ### Helper lemmas about rank resolution -/

/-- If the resolved cooldown is `0`, `isOnCooldown` returns `null`, for any
table, user and invocation history (line 622 of the source). -/
theorem isOnCooldown_of_resolve_zero (gmKey : String) (t : List (String × Nat))
    (cooldowns : String → Option Int) (playerName : String)
    (guildRank : Option String) (now : Int)
    (h : resolveCooldownSeconds gmKey t guildRank = some 0) :
    isOnCooldown gmKey t cooldowns playerName guildRank now = none := by
  unfold isOnCooldown
  rw [h]
  simp

/-- The empty label matches no rank keyword. -/
theorem keywordCooldown_empty (gmKey : String) (t : List (String × Nat)) :
    keywordCooldown gmKey t "" = none := by
  simp [keywordCooldown, jsToLower, strIncludes, charsContains]

/-- C1: If the cooldown resolved for a rank is `0` seconds, `isOnCooldown`
returns `null` for every username and invocation history (first conjunct, for
any table); in particular every exact key of the default hypixel-stats table
mapped to `0` (second conjunct) and every exact key of the FunBot fallback
table mapped to `0` (third conjunct) is never throttled — for those keys the
zero-valued exact entry is skipped by the truthiness test but the keyword
fallback resolves to the same `0` value. -/
theorem c1_zero_cooldown_never_throttled :
    (∀ (gmKey : String) (t : List (String × Nat)) (cooldowns : String → Option Int)
       (playerName : String) (guildRank : Option String) (now : Int),
       resolveCooldownSeconds gmKey t guildRank = some 0 →
       isOnCooldown gmKey t cooldowns playerName guildRank now = none) ∧
    (∀ (cooldowns : String → Option Int) (playerName r : String) (now : Int),
       lookupRank hypixelGuildRankCooldowns r = some 0 →
       isOnCooldown "Guild Master" hypixelGuildRankCooldowns cooldowns playerName
         (some r) now = none) ∧
    (∀ (cooldowns : String → Option Int) (playerName r : String) (now : Int),
       lookupRank funBotGuildRankCooldowns r = some 0 →
       isOnCooldown "GM" funBotGuildRankCooldowns cooldowns playerName
         (some r) now = none) := by
  refine ⟨fun gmKey t cooldowns p g now h => isOnCooldown_of_resolve_zero _ _ _ _ _ _ h, ?_, ?_⟩
  · intro cooldowns p r now h
    simp only [hypixelGuildRankCooldowns, lookupRank] at h
    split_ifs at h with h1 h2 h3 h4 h5 <;> simp_all
    · subst h1
      exact isOnCooldown_of_resolve_zero _ _ _ _ _ _ (by decide)
    · subst h2
      exact isOnCooldown_of_resolve_zero _ _ _ _ _ _ (by decide)
    · subst h3
      exact isOnCooldown_of_resolve_zero _ _ _ _ _ _ (by decide)
  · intro cooldowns p r now h
    simp only [funBotGuildRankCooldowns, lookupRank] at h
    split_ifs at h with h1 h2 h3 h4 h5 h6 <;> simp_all
    subst h1
    exact isOnCooldown_of_resolve_zero _ _ _ _ _ _ (by decide)

/-- Witness for C1: the rank `"Leader"` is an exact key of the default
hypixel-stats table with value `0`, and a user with a fresh invocation record
is still not throttled. -/
theorem c1_zero_cooldown_never_throttled_witness :
    lookupRank hypixelGuildRankCooldowns "Leader" = some 0 ∧
    isOnCooldown "Guild Master" hypixelGuildRankCooldowns
      (fun _ => some 999) "Alice" (some "Leader") 1000 = none :=
  ⟨by decide,
   c1_zero_cooldown_never_throttled.2.1 (fun _ => some 999) "Alice" "Leader" 1000 (by decide)⟩

/-- Counterexample to C2 as stated: the label `"[Elite]"` is not a key of the
default hypixel-stats cooldown table, yet `isOnCooldown` resolves it through
the keyword list to the `Elite` tier (30 s), not the `"Member"` default
(45 s), and the returned remaining time (29 s) differs from the Member-based
one (44 s). -/
theorem c2_counterexample_keyword_label :
    lookupRank hypixelGuildRankCooldowns "[Elite]" = none ∧
    lookupRank hypixelGuildRankCooldowns "Member" = some 45 ∧
    resolveCooldownSeconds "Guild Master" hypixelGuildRankCooldowns (some "[Elite]") = some 30 ∧
    isOnCooldown "Guild Master" hypixelGuildRankCooldowns
      (fun u => if u = "Alice" then some 1000 else none) "Alice" (some "[Elite]") 2000
      = some 29 ∧
    isOnCooldown "Guild Master" hypixelGuildRankCooldowns
      (fun u => if u = "Alice" then some 1000 else none) "Alice" (some "Member") 2000
      = some 44 := by
  refine ⟨by decide, by decide, by decide, by decide, by decide⟩

/-- C2 (amended): for a guild rank label that is not a key of the cooldown
table, resolution falls to the case-insensitive keyword-substring list and
only then to the `"Member"` default; a label that is not a key and contains
none of the keywords always lands on `"Member"`; and a non-empty label that
is an exact key with non-zero value resolves to that exact value. -/
theorem c2_rank_resolution_fallback :
    (∀ (gmKey : String) (t : List (String × Nat)) (r : String),
       lookupRank t r = none →
       resolveCooldownSeconds gmKey t (some r) =
         (match keywordCooldown gmKey t r with
          | some v => some v
          | none => lookupRank t "Member")) ∧
    (∀ (gmKey : String) (t : List (String × Nat)) (r : String),
       lookupRank t r = none → keywordCooldown gmKey t r = none →
       resolveCooldownSeconds gmKey t (some r) = lookupRank t "Member") ∧
    (∀ (gmKey : String) (t : List (String × Nat)) (r : String) (v : Nat),
       r ≠ "" → lookupRank t r = some v → v ≠ 0 →
       resolveCooldownSeconds gmKey t (some r) = some v) := by
  have key : ∀ (gmKey : String) (t : List (String × Nat)) (r : String),
      lookupRank t r = none →
      resolveCooldownSeconds gmKey t (some r) =
        (match keywordCooldown gmKey t r with
         | some v => some v
         | none => lookupRank t "Member") := by
    intro gmKey t r h
    by_cases hr : r = ""
    · subst hr
      simp [resolveCooldownSeconds, keywordCooldown_empty]
    · simp only [resolveCooldownSeconds, hr, if_false, h]
  refine ⟨key, ?_, ?_⟩
  · intro gmKey t r h hkw
    rw [key gmKey t r h, hkw]
  · intro gmKey t r v hr h hv
    simp only [resolveCooldownSeconds, hr, if_false, h, hv, ne_eq, not_false_iff, if_true]

/-- Witness for C2 (amended): `"randomguy"` is not a key and contains no
keyword, so it resolves to the Member value `45`. -/
theorem c2_rank_resolution_fallback_witness :
    resolveCooldownSeconds "Guild Master" hypixelGuildRankCooldowns (some "randomguy")
      = lookupRank hypixelGuildRankCooldowns "Member" :=
  c2_rank_resolution_fallback.2.1 "Guild Master" hypixelGuildRankCooldowns "randomguy"
    (by decide) (by decide)

/-- C6: a present cache entry read at `now ≥ expiresAt` yields `null` and is
deleted by that read; read before expiry it yields the stored data verbatim
and leaves the cache unchanged.  Instantiated at the default 15-minute TTL: a
value stored at `t0` is still returned at `t0 + 14` min, and at `t0 + 16` min
the read returns `null` and removes the entry. -/
theorem c6_cache_expiry :
    (∀ (α : Type) (cache : String → Option (CacheEntry α)) (key : String) (now : Int)
       (e : CacheEntry α), cache key = some e →
       (now ≥ e.expiresAt →
          (getCachedData cache key now).2 = none ∧
          (getCachedData cache key now).1 key = none) ∧
       (now < e.expiresAt → getCachedData cache key now = (cache, some e.data))) ∧
    (∀ (α : Type) (cache : String → Option (CacheEntry α)) (key : String) (d : α)
       (t0 : Int),
       (getCachedData (setCachedData cache key d t0 cacheExpiryTime) key
          (t0 + 14 * 60 * 1000)).2 = some d ∧
       (getCachedData (setCachedData cache key d t0 cacheExpiryTime) key
          (t0 + 16 * 60 * 1000)).2 = none ∧
       (getCachedData (setCachedData cache key d t0 cacheExpiryTime) key
          (t0 + 16 * 60 * 1000)).1 key = none) := by
  constructor
  · intro α cache key now e he
    constructor
    · intro hexp
      unfold getCachedData
      rw [he]
      simp [hexp]
    · intro hfresh
      unfold getCachedData
      rw [he]
      simp only [ge_iff_le, not_le.mpr hfresh, if_false]
  · intro α cache key d t0
    have hset : setCachedData cache key d t0 cacheExpiryTime key =
        some ⟨d, t0, t0 + cacheExpiryTime⟩ := by
      simp [setCachedData]
    refine ⟨?_, ?_, ?_⟩
    · unfold getCachedData
      rw [hset]
      have : ¬ (t0 + 14 * 60 * 1000 ≥ t0 + cacheExpiryTime) := by
        simp only [cacheExpiryTime]
        omega
      simp only [ge_iff_le] at this ⊢
      rw [if_neg this]
    · unfold getCachedData
      rw [hset]
      have : t0 + 16 * 60 * 1000 ≥ t0 + cacheExpiryTime := by
        simp only [cacheExpiryTime]
        omega
      simp only [ge_iff_le] at this ⊢
      rw [if_pos this]
    · unfold getCachedData
      rw [hset]
      have : t0 + 16 * 60 * 1000 ≥ t0 + cacheExpiryTime := by
        simp only [cacheExpiryTime]
        omega
      simp only [ge_iff_le] at this ⊢
      rw [if_pos this]
      simp

/-- Witness for C6: a concrete entry expiring at `10` read at `10` is dropped,
and read at `9` is returned. -/
theorem c6_cache_expiry_witness :
    (getCachedData (fun k => if k = "mojang:steve" then some (⟨7, 0, 10⟩ : CacheEntry ℕ)
       else none) "mojang:steve" 10).2 = none ∧
    (getCachedData (fun k => if k = "mojang:steve" then some (⟨7, 0, 10⟩ : CacheEntry ℕ)
       else none) "mojang:steve" 10).1 "mojang:steve" = none ∧
    (getCachedData (fun k => if k = "mojang:steve" then some (⟨7, 0, 10⟩ : CacheEntry ℕ)
       else none) "mojang:steve" 9).2 = some 7 := by
  have h := c6_cache_expiry.1 ℕ
    (fun k => if k = "mojang:steve" then some (⟨7, 0, 10⟩ : CacheEntry ℕ) else none)
    "mojang:steve" 10 ⟨7, 0, 10⟩ (by decide)
  have h9 := c6_cache_expiry.1 ℕ
    (fun k => if k = "mojang:steve" then some (⟨7, 0, 10⟩ : CacheEntry ℕ) else none)
    "mojang:steve" 9 ⟨7, 0, 10⟩ (by decide)
  refine ⟨(h.1 (by norm_num)).1, (h.1 (by norm_num)).2, ?_⟩
  rw [h9.2 (by norm_num)]

/-- Counterexample to C7 as stated: `"Alice"` has a recorded last invocation
(`0`), the resolved Member cooldown is `45 ≠ 0`, and the elapsed time
`500 - 0 = 500` is below `45000` ms, so the claim prescribes
`ceil(44500 / 1000) = 45` remaining seconds — but `if (lastRun && …)` treats
the recorded `0` as absent and `isOnCooldown` returns `null`. -/
theorem c7_counterexample_zero_timestamp :
    (fun u => if u = "Alice" then some (0 : Int) else none) "Alice" = some 0 ∧
    resolveCooldownSeconds "Guild Master" hypixelGuildRankCooldowns (some "Member")
      = some 45 ∧
    (500 : Int) - 0 < 45 * 1000 ∧
    jsCeilDiv (45 * 1000 - ((500 : Int) - 0)) 1000 = 45 ∧
    isOnCooldown "Guild Master" hypixelGuildRankCooldowns
      (fun u => if u = "Alice" then some 0 else none) "Alice" (some "Member") 500
      = none ∧
    (none : Option Int) ≠ some 45 := by
  refine ⟨by decide, by decide, by decide, by decide, by decide, by decide⟩

/-- C7 (amended): for a resolved non-zero cooldown `cs`, a user with no
recorded invocation is not on cooldown, and a user with a recorded *non-zero*
last invocation gets `⌈(cs·1000 − elapsed) / 1000⌉` remaining seconds when
`elapsed < cs·1000` and `null` otherwise (a recorded `0` timestamp is treated
as absent by the source's truthiness test — see the counterexample). -/
theorem c7_cooldown_remaining (gmKey : String) (t : List (String × Nat))
    (cooldowns : String → Option Int) (p : String) (guildRank : Option String)
    (now : Int) (cs : ℕ)
    (hres : resolveCooldownSeconds gmKey t guildRank = some cs) (hcs : cs ≠ 0) :
    (cooldowns p = none → isOnCooldown gmKey t cooldowns p guildRank now = none) ∧
    (∀ lastRun : Int, cooldowns p = some lastRun → lastRun ≠ 0 →
       isOnCooldown gmKey t cooldowns p guildRank now =
         (if now - lastRun < (cs : Int) * 1000 then
            some ⌈((((cs : Int) * 1000 - (now - lastRun)) : Int) : ℚ) / 1000⌉
          else none)) := by
  constructor
  · intro hnone
    unfold isOnCooldown
    rw [hres, hnone]
    simp [hcs]
  · intro lastRun hlast hlz
    unfold isOnCooldown
    rw [hres, hlast]
    simp only [hcs, if_false]
    by_cases hlt : now - lastRun < (cs : Int) * 1000
    · rw [if_pos ⟨hlz, hlt⟩, if_pos hlt, jsCeilDiv_1000]
    · rw [if_neg ?_, if_neg hlt]
      intro hc
      exact hlt hc.2

/-- Witness for C7 (amended): Alice (Member, 45 s) last invoked at `1000`,
queried at `2000`: elapsed `1000 < 45000`, remaining
`⌈44000 / 1000⌉ = 44` seconds. -/
theorem c7_cooldown_remaining_witness :
    isOnCooldown "Guild Master" hypixelGuildRankCooldowns
      (fun u => if u = "Alice" then some 1000 else none) "Alice" (some "Member") 2000
      = some 44 := by
  have h := (c7_cooldown_remaining "Guild Master" hypixelGuildRankCooldowns
    (fun u => if u = "Alice" then some 1000 else none) "Alice" (some "Member") 2000 45
    (by decide) (by decide)).2 1000 (by decide) (by decide)
  rw [h, if_pos (by norm_num)]
  norm_num

/-! ### `createStatsHandler` (hypixel-stats lines 419–497)

The returned async handler is modelled as a state transformer.  The two
`await`ed fetches and the (possibly throwing) `buildStatsMessage` call are
oracle inputs describing their outcome; `Date.now()` readings inside the
cache operations are explicit oracle times.  The handler's chat output is
recorded as a list of classified messages and the number of external fetch
calls is counted. -/

/-- The only field of a Mojang profile the handler reads (`mojangProfile.id`). -/
structure MojangProfile where
  id : String
  deriving DecidableEq, Repr

/-- Values stored in the extension's single `Map<string, any>` cache:
Mojang profiles under `mojang:` keys, Hypixel player data (opaque, type `β`)
under `player:` keys. -/
inductive StatsCacheVal (β : Type) : Type
  | mojang (p : MojangProfile)
  | player (d : β)
  deriving DecidableEq

/-- Outcome of one `await`ed fetch: data, a `FetchError` response carrying an
HTTP status (the `isFetchError` branch), or a rejection (the `catch` branch). -/
inductive FetchOutcome (α : Type) : Type
  | ok (a : α)
  | fetchErr (status : Int)
  | exn
  deriving DecidableEq

/-- Classified chat responses emitted by the stats handler. -/
inductive ChatMsg : Type
  | cooldownNotice (remaining : Int)
  | notFound
  | rateLimited
  | serverError
  | unableToFetch
  | genericError
  | statsMessage
  deriving DecidableEq, Repr

/-- `handleFetchError` (lines 748–763): the single message it sends,
classified by HTTP status. -/
def fetchErrorMessage (status : Int) : ChatMsg :=
  if status = 404 then .notFound
  else if status = 429 then .rateLimited
  else if status ≥ 500 then .serverError
  else .unableToFetch

/-- The mutable extension state touched by a stats handler: `cooldowns`,
`processingRequests`, `cache`. -/
structure StatsState (β : Type) where
  cooldowns : String → Option Int
  processing : String → Bool
  cache : String → Option (CacheEntry (StatsCacheVal β))

/-- Result of one handler execution: final state, emitted chat messages (in
order), and how many external fetches ran. -/
structure StatsRun (β : Type) where
  state : StatsState β
  messages : List ChatMsg
  fetches : Nat

/-- `requestKey` (line 425): `` `${requester}-${target}-${gameMode}` ``. -/
def statsRequestKey (requester target gameMode : String) : String :=
  requester ++ "-" ++ target ++ "-" ++ gameMode

/-- Lines 442–443: `processingRequests.add(requestKey)` and
`setCooldown(requester, Date.now())`. -/
def statsAcquire {β : Type} (s : StatsState β) (requestKey requester : String)
    (now : Int) : StatsState β :=
  { s with
    processing := fun k => if k = requestKey then true else s.processing k,
    cooldowns := setCooldown s.cooldowns requester now }

/-- The `finally` release (line 494): `processingRequests.delete(requestKey)`
(the early error returns delete explicitly first; deleting twice is the same
as deleting once). -/
def statsRelease {β : Type} (s : StatsState β) (requestKey : String) : StatsState β :=
  { s with processing := fun k => if k = requestKey then false else s.processing k }

/-- Oracle inputs of one stats-handler execution. -/
structure StatsOracles (β : Type) where
  mojangFetch : FetchOutcome MojangProfile
  playerFetch : FetchOutcome β
  buildThrows : Bool
  tMojangGet : Int
  tMojangSet : Int
  tPlayerGet : Int
  tPlayerSet : Int

/-- Final part of the `try` block (lines 479–491): `buildStatsMessage` either
produces the stats line or throws into the `catch` block; either way the
`finally` releases the key. -/
def statsBuild {β : Type} (s : StatsState β) (requestKey : String)
    (cache : String → Option (CacheEntry (StatsCacheVal β))) (fetches : Nat)
    (buildThrows : Bool) : StatsRun β :=
  if buildThrows then ⟨statsRelease { s with cache := cache } requestKey, [.genericError], fetches⟩
  else ⟨statsRelease { s with cache := cache } requestKey, [.statsMessage], fetches⟩

/-- Lines 463–476: the `player` cache lookup and, on a miss, the
`fetchHypixelPlayerProfile` call, then the message build. -/
def statsAfterMojang {β : Type} (s : StatsState β) (requestKey : String)
    (cache : String → Option (CacheEntry (StatsCacheVal β))) (p : MojangProfile)
    (fetches : Nat) (o : StatsOracles β) : StatsRun β :=
  let playerKey := generateCacheKey "player" p.id
  let read := getCachedData cache playerKey o.tPlayerGet
  match read.2 with
  | some _ => statsBuild s requestKey read.1 fetches o.buildThrows
  | none =>
    match o.playerFetch with
    | .fetchErr st =>
      ⟨statsRelease { s with cache := read.1 } requestKey, [fetchErrorMessage st], fetches + 1⟩
    | .exn =>
      ⟨statsRelease { s with cache := read.1 } requestKey, [.genericError], fetches + 1⟩
    | .ok d =>
      statsBuild s requestKey
        (setCachedData read.1 playerKey (.player d) o.tPlayerSet cacheExpiryTime)
        (fetches + 1) o.buildThrows

/-- The `try`/`catch`/`finally` body (lines 447–495), entered after the key
was added and the cooldown recorded.  A cache hit of the wrong shape under the
`mojang:` key would make `mojangProfile.id` `undefined` and
`undefined.toLowerCase()` throws into the `catch` block. -/
def statsPhase2 {β : Type} (s : StatsState β) (requestKey target : String)
    (o : StatsOracles β) : StatsRun β :=
  let mojangKey := generateCacheKey "mojang" target
  let read := getCachedData s.cache mojangKey o.tMojangGet
  match read.2 with
  | some (.mojang p) => statsAfterMojang s requestKey read.1 p 0 o
  | some (.player _) =>
    ⟨statsRelease { s with cache := read.1 } requestKey, [.genericError], 0⟩
  | none =>
    match o.mojangFetch with
    | .fetchErr st =>
      ⟨statsRelease { s with cache := read.1 } requestKey, [fetchErrorMessage st], 1⟩
    | .exn =>
      ⟨statsRelease { s with cache := read.1 } requestKey, [.genericError], 1⟩
    | .ok p =>
      statsAfterMojang s requestKey
        (setCachedData read.1 mojangKey (.mojang p) o.tMojangSet cacheExpiryTime) p 1 o

/-- One execution of the handler returned by `createStatsHandler` (lines
420–496): duplicate suppression (lines 428–431, silent), cooldown rejection
(lines 434–439, one message), then acquire + cooldown record and the fetch
chain.  `t` is the configured rank-cooldown table. -/
def createStatsHandlerRun {β : Type} (t : List (String × Nat)) (s : StatsState β)
    (requester target gameMode : String) (guildRank : Option String) (now : Int)
    (o : StatsOracles β) : StatsRun β :=
  let requestKey := statsRequestKey requester target gameMode
  if s.processing requestKey then ⟨s, [], 0⟩
  else
    match isOnCooldown "Guild Master" t s.cooldowns requester guildRank now with
    | some r =>
      if r > 0 then ⟨s, [.cooldownNotice r], 0⟩
      else statsPhase2 (statsAcquire s requestKey requester now) requestKey target o
    | none => statsPhase2 (statsAcquire s requestKey requester now) requestKey target o

/-! ### `UrchinBlacklistExtension.handleViewCommand` (urchin-blacklist lines 90–205) -/

/-- Outcome of one `fetch`: a network/parse rejection, or a response with an
HTTP status and (for `2xx` responses) a parsed body. -/
inductive HttpOutcome (α : Type) : Type
  | throwE
  | resp (status : Int) (body : α)
  deriving DecidableEq

/-- `Response.ok`: status in the range 200–299. -/
def httpOk (status : Int) : Bool := 200 ≤ status && status ≤ 299

/-- `UrchinBlacklistExtension.isOnCooldown` (lines 210–219): returns `0` when
not on cooldown (note `if (lastRequest)` truthiness).  `cooldownTime` is
`config.cooldownTime` (default 5000 ms). -/
def urchinIsOnCooldown (cooldowns : String → Option Int) (playerName : String)
    (now cooldownTime : Int) : Int :=
  match cooldowns playerName with
  | none => 0
  | some lastRequest =>
    if lastRequest ≠ 0 then
      if now - lastRequest < cooldownTime then
        jsCeilDiv (cooldownTime - (now - lastRequest)) 1000
      else 0
    else 0

/-- Mutable state of the urchin-blacklist extension. -/
structure ViewState where
  cooldowns : String → Option Int
  processing : String → Bool

/-- Classified chat responses of the `!view` handler. -/
inductive ViewMsg : Type
  | cooldownNotice (remaining : Int)
  | invalidUsername
  | lookupFailed
  | noTags
  | authFailed
  | rateLimited
  | urchinFailed
  | tagLine (tag : String)
  deriving DecidableEq, Repr

/-- Oracle inputs of one `!view` execution: the Mojang response (body: the
`uuidData.id` string for `2xx`), whether `uuidResponse.json()` throws, the
Urchin response (body: the `tags` array, `none` modelling a missing/undefined
`tags` field), and whether `urchinResponse.json()` throws. -/
structure ViewOracles where
  mojangResp : HttpOutcome String
  mojangJsonThrows : Bool
  urchinResp : HttpOutcome (Option (List String))
  urchinJsonThrows : Bool

/-- Result of one `!view` execution: final state, messages, and whether the
downstream Urchin provider was called at all. -/
structure ViewRun where
  state : ViewState
  messages : List ViewMsg
  urchinCalled : Bool

/-- `requestKey` (line 95): `` `${requester}-${target}-view` ``. -/
def viewRequestKey (requester target : String) : String :=
  requester ++ "-" ++ target ++ "-view"

/-- Lines 112–113: add the key, record the cooldown. -/
def viewAcquire (s : ViewState) (requestKey requester : String) (now : Int) : ViewState :=
  { cooldowns := setCooldown s.cooldowns requester now,
    processing := fun k => if k = requestKey then true else s.processing k }

/-- The `finally` (line 203): `processingRequests.delete(requestKey)`. -/
def viewRelease (s : ViewState) (requestKey : String) : ViewState :=
  { s with processing := fun k => if k = requestKey then false else s.processing k }

/-- Step 2 of the handler (lines 145–196): the Urchin query and its status
taxonomy; every failure branch emits exactly one message, success emits one
message per tag. -/
def viewUrchinStep (s1 : ViewState) (requestKey : String) (o : ViewOracles) : ViewRun :=
  match o.urchinResp with
  | .throwE => ⟨viewRelease s1 requestKey, [.urchinFailed], true⟩
  | .resp st body =>
    if st = 404 then ⟨viewRelease s1 requestKey, [.noTags], true⟩
    else if st = 401 then ⟨viewRelease s1 requestKey, [.authFailed], true⟩
    else if st = 429 then ⟨viewRelease s1 requestKey, [.rateLimited], true⟩
    else if ¬ httpOk st then ⟨viewRelease s1 requestKey, [.urchinFailed], true⟩
    else if o.urchinJsonThrows then ⟨viewRelease s1 requestKey, [.urchinFailed], true⟩
    else
      match body with
      | none => ⟨viewRelease s1 requestKey, [.noTags], true⟩
      | some [] => ⟨viewRelease s1 requestKey, [.noTags], true⟩
      | some tags => ⟨viewRelease s1 requestKey, tags.map ViewMsg.tagLine, true⟩

/-- The `try`/`catch`/`finally` body of `handleViewCommand` (lines 117–204),
entered after the key was added and the cooldown recorded: the Mojang lookup
with its `204`/`404` unknown-username branch (lines 128–131), the `ok` check
and JSON parse (both throwing into the step-1 `catch`), then the Urchin step. -/
def viewPhase2 (s1 : ViewState) (requestKey : String) (o : ViewOracles) : ViewRun :=
  match o.mojangResp with
  | .throwE => ⟨viewRelease s1 requestKey, [.lookupFailed], false⟩
  | .resp st _ =>
    if st = 204 ∨ st = 404 then ⟨viewRelease s1 requestKey, [.invalidUsername], false⟩
    else if ¬ httpOk st then ⟨viewRelease s1 requestKey, [.lookupFailed], false⟩
    else if o.mojangJsonThrows then ⟨viewRelease s1 requestKey, [.lookupFailed], false⟩
    else viewUrchinStep s1 requestKey o

/-- One execution of `handleViewCommand` (lines 90–205): duplicate
suppression (silent), cooldown rejection (one message), acquire, then the
lookup chain. -/
def handleViewCommandRun (s : ViewState) (requester target : String)
    (now cooldownTime : Int) (o : ViewOracles) : ViewRun :=
  let requestKey := viewRequestKey requester target
  if s.processing requestKey then ⟨s, [], false⟩
  else
    let rem := urchinIsOnCooldown s.cooldowns requester now cooldownTime
    if rem > 0 then ⟨s, [.cooldownNotice rem], false⟩
    else viewPhase2 (viewAcquire s requestKey requester now) requestKey o

/-! ### `FunBotExtension.sendResponse` (part_003 lines 457–484) -/

/-- Number of chat sends `sendResponse` performs for a given channel
(lines 477–483): guild chat for `Guild`/`Officer`, a private message for
`From`, a party message for `Party`, and nothing otherwise. -/
def sendResponseDispatch (channel : String) : Nat :=
  if channel = "Guild" ∨ channel = "Officer" then 1
  else if channel = "From" then 1
  else if channel = "Party" then 1
  else 0

/-- `FunBotExtension.sendResponse`: returns the updated cooldown map and the
number of chat messages sent.  A cooldown rejection is silent (lines 467–470:
"Silently ignore if on cooldown"). -/
def sendResponse (enabled : Bool) (t : List (String × Nat))
    (cooldowns : String → Option Int) (username : String) (guildRank : Option String)
    (channel : String) (now : Int) : (String → Option Int) × Nat :=
  if enabled = false then (cooldowns, 0)
  else
    match isOnCooldown "GM" t cooldowns username guildRank now with
    | some r =>
      if r > 0 then (cooldowns, 0)
      else (setCooldown cooldowns username now, sendResponseDispatch channel)
    | none => (setCooldown cooldowns username now, sendResponseDispatch channel)

/-- The source's cooldown-rejection test (line 435):
`cooldownRemaining !== null && cooldownRemaining > 0`. -/
def cooldownRejects : Option Int → Bool
  | some r => r > 0
  | none => false

/-- The message-build step always releases the key. -/
theorem statsBuild_releases {β : Type} (s : StatsState β) (requestKey : String)
    (cache : String → Option (CacheEntry (StatsCacheVal β))) (fetches : Nat)
    (bt : Bool) :
    ((statsBuild s requestKey cache fetches bt).state).processing requestKey = false := by
  unfold statsBuild
  split <;> simp [statsRelease]

/-- The message-build step emits exactly one message. -/
theorem statsBuild_one_message {β : Type} (s : StatsState β) (requestKey : String)
    (cache : String → Option (CacheEntry (StatsCacheVal β))) (fetches : Nat)
    (bt : Bool) :
    (statsBuild s requestKey cache fetches bt).messages.length = 1 := by
  unfold statsBuild
  split <;> simp

/-- The player-lookup step always releases the key. -/
theorem statsAfterMojang_releases {β : Type} (s : StatsState β) (requestKey : String)
    (cache : String → Option (CacheEntry (StatsCacheVal β))) (p : MojangProfile)
    (fetches : Nat) (o : StatsOracles β) :
    ((statsAfterMojang s requestKey cache p fetches o).state).processing requestKey = false := by
  simp only [statsAfterMojang]
  split
  · exact statsBuild_releases _ _ _ _ _
  · split
    · simp [statsRelease]
    · simp [statsRelease]
    · exact statsBuild_releases _ _ _ _ _

/-- The player-lookup step emits exactly one message. -/
theorem statsAfterMojang_one_message {β : Type} (s : StatsState β) (requestKey : String)
    (cache : String → Option (CacheEntry (StatsCacheVal β))) (p : MojangProfile)
    (fetches : Nat) (o : StatsOracles β) :
    (statsAfterMojang s requestKey cache p fetches o).messages.length = 1 := by
  simp only [statsAfterMojang]
  split
  · exact statsBuild_one_message _ _ _ _ _
  · split
    · simp
    · simp
    · exact statsBuild_one_message _ _ _ _ _

/-- Every path through the stats handler's `try`/`catch`/`finally` body ends
with the request key absent from `processingRequests`. -/
theorem statsPhase2_releases {β : Type} (s : StatsState β) (requestKey target : String)
    (o : StatsOracles β) :
    ((statsPhase2 s requestKey target o).state).processing requestKey = false := by
  simp only [statsPhase2]
  split
  · exact statsAfterMojang_releases _ _ _ _ _ _
  · simp [statsRelease]
  · split
    · simp [statsRelease]
    · simp [statsRelease]
    · exact statsAfterMojang_releases _ _ _ _ _ _

/-- Every path through the stats handler's `try`/`catch`/`finally` body emits
exactly one chat message. -/
theorem statsPhase2_one_message {β : Type} (s : StatsState β) (requestKey target : String)
    (o : StatsOracles β) :
    (statsPhase2 s requestKey target o).messages.length = 1 := by
  simp only [statsPhase2]
  split
  · exact statsAfterMojang_one_message _ _ _ _ _ _
  · simp
  · split
    · simp
    · simp
    · exact statsAfterMojang_one_message _ _ _ _ _ _

/-- Every path through the Urchin step releases the key. -/
theorem viewUrchinStep_releases (s1 : ViewState) (requestKey : String) (o : ViewOracles) :
    ((viewUrchinStep s1 requestKey o).state).processing requestKey = false := by
  unfold viewUrchinStep
  repeat' split
  all_goals simp [viewRelease]

/-- Every path through the Urchin step emits exactly one message, except the
success path with a non-empty tag list, which emits one message per tag. -/
theorem viewUrchinStep_messages (s1 : ViewState) (requestKey : String) (o : ViewOracles) :
    (viewUrchinStep s1 requestKey o).messages.length = 1 ∨
    ∃ tags : List String, tags ≠ [] ∧
      (viewUrchinStep s1 requestKey o).messages = tags.map ViewMsg.tagLine := by
  unfold viewUrchinStep
  rcases hu : o.urchinResp with _ | ⟨st, body⟩
  · simp
  · simp only []
    split_ifs <;> try simp
    rcases body with _ | ⟨_ | ⟨x, xs⟩⟩
    · simp
    · simp
    · exact Or.inr ⟨x :: xs, by simp, rfl⟩

/-- Every path through the `!view` lookup chain releases the key. -/
theorem viewPhase2_releases (s1 : ViewState) (requestKey : String) (o : ViewOracles) :
    ((viewPhase2 s1 requestKey o).state).processing requestKey = false := by
  unfold viewPhase2
  split
  · simp [viewRelease]
  · split_ifs <;> first
      | simp [viewRelease]
      | exact viewUrchinStep_releases _ _ _

/-- C10: a stats or `!view` invocation whose request key is already in the
in-flight set returns before the cooldown check: no message is sent, no fetch
runs, and the cooldown map, cache and in-flight set are all left untouched
(the whole state is returned unchanged). -/
theorem c10_duplicate_request_frame :
    (∀ (β : Type) (t : List (String × Nat)) (s : StatsState β)
       (requester target gameMode : String) (guildRank : Option String) (now : Int)
       (o : StatsOracles β),
       s.processing (statsRequestKey requester target gameMode) = true →
       createStatsHandlerRun t s requester target gameMode guildRank now o = ⟨s, [], 0⟩) ∧
    (∀ (s : ViewState) (requester target : String) (now cooldownTime : Int)
       (o : ViewOracles),
       s.processing (viewRequestKey requester target) = true →
       handleViewCommandRun s requester target now cooldownTime o = ⟨s, [], false⟩) := by
  constructor
  · intro β t s requester target gameMode guildRank now o h
    unfold createStatsHandlerRun
    simp [h]
  · intro s requester target now cooldownTime o h
    unfold handleViewCommandRun
    simp [h]

/-- Witness for C10: a concrete duplicate stats request leaves the state,
message list and fetch count untouched. -/
theorem c10_duplicate_request_frame_witness :
    (createStatsHandlerRun (β := Unit) hypixelGuildRankCooldowns
       ⟨fun _ => none, fun k => k = statsRequestKey "Alice" "Bob" "Bedwars", fun _ => none⟩
       "Alice" "Bob" "Bedwars" (some "Member") 2000
       ⟨.exn, .exn, false, 0, 0, 0, 0⟩).messages = [] :=
  by
  rw [c10_duplicate_request_frame.1 Unit hypixelGuildRankCooldowns
    ⟨fun _ => none, fun k => k = statsRequestKey "Alice" "Bob" "Bedwars", fun _ => none⟩
    "Alice" "Bob" "Bedwars" (some "Member") 2000 ⟨.exn, .exn, false, 0, 0, 0, 0⟩
    (by simp)]

/-- C4: a request key added to the in-flight set by a stats or `!view`
handler invocation is absent again after the handler completes, on every
completion path (normal return, early fetch-error return, or thrown
execution — the `finally` always deletes it). -/
theorem c4_inflight_key_released :
    (∀ (β : Type) (t : List (String × Nat)) (s : StatsState β)
       (requester target gameMode : String) (guildRank : Option String) (now : Int)
       (o : StatsOracles β),
       s.processing (statsRequestKey requester target gameMode) = false →
       ((createStatsHandlerRun t s requester target gameMode guildRank now o).state).processing
         (statsRequestKey requester target gameMode) = false) ∧
    (∀ (s : ViewState) (requester target : String) (now cooldownTime : Int)
       (o : ViewOracles),
       s.processing (viewRequestKey requester target) = false →
       ((handleViewCommandRun s requester target now cooldownTime o).state).processing
         (viewRequestKey requester target) = false) := by
  constructor
  · intro β t s requester target gameMode guildRank now o h
    unfold createStatsHandlerRun
    simp only [h, Bool.false_eq_true, if_false]
    split
    · split
      · exact h
      · exact statsPhase2_releases _ _ _ _
    · exact statsPhase2_releases _ _ _ _
  · intro s requester target now cooldownTime o h
    unfold handleViewCommandRun
    simp only [h, Bool.false_eq_true, if_false]
    split
    · exact h
    · exact viewPhase2_releases _ _ _

/-- Witness for C4: a concrete `!view` run whose Mojang fetch rejects still
ends with the key absent. -/
theorem c4_inflight_key_released_witness :
    ((handleViewCommandRun ⟨fun _ => none, fun _ => false⟩ "Alice" "Bob" 1000 5000
        ⟨.throwE, false, .throwE, false⟩).state).processing
      (viewRequestKey "Alice" "Bob") = false :=
  c4_inflight_key_released.2 ⟨fun _ => none, fun _ => false⟩ "Alice" "Bob" 1000 5000
    ⟨.throwE, false, .throwE, false⟩ rfl

/-- C5: two acquisition attempts for the same request key without an
intervening release succeed then fail.  For each handler: a first invocation
that passes dedup and cooldown proceeds into its lookup chain from the
acquired state, in which the key is present; a second invocation arriving
while the first is still in flight is dropped silently — no message, no
cooldown update, the state returned untouched — and performs no external
lookup (`fetches = 0`, `urchinCalled = false`), so only the first
invocation's lookup chain executes for that key. -/
theorem c5_dedup_second_acquisition_fails :
    (∀ (β : Type) (t : List (String × Nat)) (s : StatsState β)
       (requester target gameMode : String) (guildRank guildRank2 : Option String)
       (now now2 : Int) (o o2 : StatsOracles β),
       s.processing (statsRequestKey requester target gameMode) = false →
       cooldownRejects (isOnCooldown "Guild Master" t s.cooldowns requester guildRank now)
         = false →
       createStatsHandlerRun t s requester target gameMode guildRank now o =
         statsPhase2 (statsAcquire s (statsRequestKey requester target gameMode) requester now)
           (statsRequestKey requester target gameMode) target o ∧
       (statsAcquire s (statsRequestKey requester target gameMode) requester now).processing
         (statsRequestKey requester target gameMode) = true ∧
       createStatsHandlerRun t
           (statsAcquire s (statsRequestKey requester target gameMode) requester now)
           requester target gameMode guildRank2 now2 o2 =
         ⟨statsAcquire s (statsRequestKey requester target gameMode) requester now, [], 0⟩) ∧
    (∀ (s : ViewState) (requester target : String) (now now2 cooldownTime cooldownTime2 : Int)
       (o o2 : ViewOracles),
       s.processing (viewRequestKey requester target) = false →
       ¬ urchinIsOnCooldown s.cooldowns requester now cooldownTime > 0 →
       handleViewCommandRun s requester target now cooldownTime o =
         viewPhase2 (viewAcquire s (viewRequestKey requester target) requester now)
           (viewRequestKey requester target) o ∧
       (viewAcquire s (viewRequestKey requester target) requester now).processing
         (viewRequestKey requester target) = true ∧
       handleViewCommandRun (viewAcquire s (viewRequestKey requester target) requester now)
           requester target now2 cooldownTime2 o2 =
         ⟨viewAcquire s (viewRequestKey requester target) requester now, [], false⟩) := by
  constructor
  · intro β t s requester target gameMode guildRank guildRank2 now now2 o o2 h hcd
    refine ⟨?_, by simp [statsAcquire], ?_⟩
    · unfold createStatsHandlerRun
      simp only [h, Bool.false_eq_true, if_false]
      split
      · rename_i r hr
        rw [hr] at hcd
        simp only [cooldownRejects] at hcd
        rw [if_neg (by simpa using hcd)]
      · rfl
    · unfold createStatsHandlerRun
      simp [statsAcquire]
  · intro s requester target now now2 cooldownTime cooldownTime2 o o2 h hcd
    refine ⟨?_, by simp [viewAcquire], ?_⟩
    · unfold handleViewCommandRun
      simp only [h, Bool.false_eq_true, if_false]
      rw [if_neg hcd]
    · unfold handleViewCommandRun
      simp [viewAcquire]

/-- Witness for C5: a concrete `!view` scenario — Alice's first `!view Bob`
proceeds and inserts the key; a second `!view Bob` issued while the first is
in flight returns the acquired state unchanged, sends nothing, and performs
no lookup. -/
theorem c5_dedup_second_acquisition_fails_witness :
    handleViewCommandRun
        (viewAcquire ⟨fun _ => none, fun _ => false⟩ (viewRequestKey "Alice" "Bob")
          "Alice" 1000)
        "Alice" "Bob" 1200 5000 ⟨.resp 200 "uuid", false, .resp 200 (some ["SCAMMER"]), false⟩ =
      ⟨viewAcquire ⟨fun _ => none, fun _ => false⟩ (viewRequestKey "Alice" "Bob")
        "Alice" 1000, [], false⟩ :=
  (c5_dedup_second_acquisition_fails.2 ⟨fun _ => none, fun _ => false⟩ "Alice" "Bob"
    1000 1200 5000 5000 ⟨.resp 200 "uuid", false, .resp 200 (some ["SCAMMER"]), false⟩
    ⟨.resp 200 "uuid", false, .resp 200 (some ["SCAMMER"]), false⟩ rfl
    (by decide)).2.2

/-- C8: a `!view` request (past the dedup and cooldown gates) whose Mojang
lookup returns HTTP `204` or `404` emits exactly one NotFound-class message
(`[NOT-TAGGED] … is not a valid Minecraft username`), never calls the
downstream Urchin tag provider, and releases its key. -/
theorem c8_mojang_unknown_username (s : ViewState) (requester target : String)
    (now cooldownTime : Int) (o : ViewOracles) (st : Int) (uuid : String)
    (hdup : s.processing (viewRequestKey requester target) = false)
    (hcd : ¬ urchinIsOnCooldown s.cooldowns requester now cooldownTime > 0)
    (hresp : o.mojangResp = .resp st uuid) (hst : st = 204 ∨ st = 404) :
    handleViewCommandRun s requester target now cooldownTime o =
      ⟨viewRelease (viewAcquire s (viewRequestKey requester target) requester now)
         (viewRequestKey requester target), [.invalidUsername], false⟩ ∧
    ((handleViewCommandRun s requester target now cooldownTime o).state).processing
      (viewRequestKey requester target) = false := by
  have hrun : handleViewCommandRun s requester target now cooldownTime o =
      ⟨viewRelease (viewAcquire s (viewRequestKey requester target) requester now)
         (viewRequestKey requester target), [.invalidUsername], false⟩ := by
    unfold handleViewCommandRun
    simp only [hdup, Bool.false_eq_true, if_false]
    rw [if_neg hcd]
    unfold viewPhase2
    rw [hresp]
    simp [hst]
  refine ⟨hrun, ?_⟩
  rw [hrun]
  simp [viewRelease]

/-- Witness for C8: a `204` Mojang response for `"Ghost"` yields exactly the
one invalid-username message and no Urchin call. -/
theorem c8_mojang_unknown_username_witness :
    (handleViewCommandRun ⟨fun _ => none, fun _ => false⟩ "Alice" "Ghost" 1000 5000
        ⟨.resp 204 "", false, .resp 200 (some ["SCAMMER"]), false⟩).messages
      = [ViewMsg.invalidUsername] ∧
    (handleViewCommandRun ⟨fun _ => none, fun _ => false⟩ "Alice" "Ghost" 1000 5000
        ⟨.resp 204 "", false, .resp 200 (some ["SCAMMER"]), false⟩).urchinCalled = false := by
  have h := (c8_mojang_unknown_username ⟨fun _ => none, fun _ => false⟩ "Alice" "Ghost"
    1000 5000 ⟨.resp 204 "", false, .resp 200 (some ["SCAMMER"]), false⟩ 204 "" rfl
    (by decide) rfl (Or.inl rfl)).1
  rw [h]
  exact ⟨rfl, rfl⟩

/-- Every path through the `!view` lookup chain emits exactly one message,
except the success path with a non-empty tag list (one message per tag). -/
theorem viewPhase2_messages (s1 : ViewState) (requestKey : String) (o : ViewOracles) :
    (viewPhase2 s1 requestKey o).messages.length = 1 ∨
    ∃ tags : List String, tags ≠ [] ∧
      (viewPhase2 s1 requestKey o).messages = tags.map ViewMsg.tagLine := by
  unfold viewPhase2
  split
  · simp
  · split_ifs <;> first
      | exact Or.inl rfl
      | exact viewUrchinStep_messages _ _ _

/-- Counterexample to C3 as stated: a stats request rejected by the cooldown
check is *not* silent — it emits exactly one "try again in N seconds" chat
message (source lines 435–438).  Alice (Member, 45 s) invoked at 1000 and
again at 2000: the duplicate guard passes, the cooldown check rejects, and
one `cooldownNotice 44` message is sent. -/
theorem c3_counterexample_cooldown_not_silent :
    isOnCooldown "Guild Master" hypixelGuildRankCooldowns
      (fun u => if u = "Alice" then some 1000 else none) "Alice" (some "Member") 2000
      = some 44 ∧
    (createStatsHandlerRun (β := Unit) hypixelGuildRankCooldowns
        ⟨fun u => if u = "Alice" then some 1000 else none, fun _ => false, fun _ => none⟩
        "Alice" "Bob" "Bedwars" (some "Member") 2000
        ⟨.exn, .exn, false, 0, 0, 0, 0⟩).messages = [ChatMsg.cooldownNotice 44] ∧
    [ChatMsg.cooldownNotice 44] ≠ ([] : List ChatMsg) := by
  refine ⟨by decide, by decide, by decide⟩

/-- C3 (amended): dedup-suppressed duplicates are silent in both handlers;
a cooldown rejection in the stats and `!view` handlers emits exactly one
cooldown-notice message (it is *not* silent), while `FunBotExtension`'s
`sendResponse` cooldown rejection is silent; and every other path emits
exactly one chat response (the `!view` success path with `n ≥ 1` tags emits
one message per tag). -/
theorem c3_failure_response_discipline :
    (∀ (β : Type) (t : List (String × Nat)) (s : StatsState β)
       (requester target gameMode : String) (guildRank : Option String) (now : Int)
       (o : StatsOracles β),
       s.processing (statsRequestKey requester target gameMode) = true →
       (createStatsHandlerRun t s requester target gameMode guildRank now o).messages = []) ∧
    (∀ (β : Type) (t : List (String × Nat)) (s : StatsState β)
       (requester target gameMode : String) (guildRank : Option String) (now : Int)
       (o : StatsOracles β) (r : Int),
       s.processing (statsRequestKey requester target gameMode) = false →
       isOnCooldown "Guild Master" t s.cooldowns requester guildRank now = some r →
       r > 0 →
       (createStatsHandlerRun t s requester target gameMode guildRank now o).messages
         = [.cooldownNotice r]) ∧
    (∀ (β : Type) (t : List (String × Nat)) (s : StatsState β)
       (requester target gameMode : String) (guildRank : Option String) (now : Int)
       (o : StatsOracles β),
       s.processing (statsRequestKey requester target gameMode) = false →
       cooldownRejects (isOnCooldown "Guild Master" t s.cooldowns requester guildRank now)
         = false →
       (createStatsHandlerRun t s requester target gameMode guildRank now o).messages.length
         = 1) ∧
    (∀ (s : ViewState) (requester target : String) (now cooldownTime : Int)
       (o : ViewOracles),
       s.processing (viewRequestKey requester target) = true →
       (handleViewCommandRun s requester target now cooldownTime o).messages = []) ∧
    (∀ (s : ViewState) (requester target : String) (now cooldownTime : Int)
       (o : ViewOracles),
       s.processing (viewRequestKey requester target) = false →
       urchinIsOnCooldown s.cooldowns requester now cooldownTime > 0 →
       (handleViewCommandRun s requester target now cooldownTime o).messages
         = [.cooldownNotice (urchinIsOnCooldown s.cooldowns requester now cooldownTime)]) ∧
    (∀ (s : ViewState) (requester target : String) (now cooldownTime : Int)
       (o : ViewOracles),
       s.processing (viewRequestKey requester target) = false →
       ¬ urchinIsOnCooldown s.cooldowns requester now cooldownTime > 0 →
       (handleViewCommandRun s requester target now cooldownTime o).messages.length = 1 ∨
       ∃ tags : List String, tags ≠ [] ∧
         (handleViewCommandRun s requester target now cooldownTime o).messages
           = tags.map ViewMsg.tagLine) ∧
    (∀ (t : List (String × Nat)) (cooldowns : String → Option Int)
       (username : String) (guildRank : Option String) (channel : String) (now : Int)
       (r : Int),
       isOnCooldown "GM" t cooldowns username guildRank now = some r → r > 0 →
       sendResponse true t cooldowns username guildRank channel now = (cooldowns, 0)) := by
  refine ⟨?_, ?_, ?_, ?_, ?_, ?_, ?_⟩
  · intro β t s requester target gameMode guildRank now o h
    unfold createStatsHandlerRun
    simp [h]
  · intro β t s requester target gameMode guildRank now o r h hc hr
    unfold createStatsHandlerRun
    simp only [h, Bool.false_eq_true, if_false]
    rw [hc]
    simp only [hr, if_true, if_pos hr]
  · intro β t s requester target gameMode guildRank now o h hcd
    unfold createStatsHandlerRun
    simp only [h, Bool.false_eq_true, if_false]
    split
    · rename_i r hr
      rw [hr] at hcd
      simp only [cooldownRejects] at hcd
      rw [if_neg (by simpa using hcd)]
      exact statsPhase2_one_message _ _ _ _
    · exact statsPhase2_one_message _ _ _ _
  · intro s requester target now cooldownTime o h
    unfold handleViewCommandRun
    simp [h]
  · intro s requester target now cooldownTime o h hr
    unfold handleViewCommandRun
    simp only [h, Bool.false_eq_true, if_false]
    rw [if_pos hr]
  · intro s requester target now cooldownTime o h hr
    unfold handleViewCommandRun
    simp only [h, Bool.false_eq_true, if_false]
    rw [if_neg hr]
    exact viewPhase2_messages _ _ _
  · intro t cooldowns username guildRank channel now r h hr
    unfold sendResponse
    rw [h]
    simp only [hr, if_pos hr]
    simp

/-- Witness for C3 (amended): the concrete cooldown rejection sends exactly
one message in the stats handler, and the FunBot cooldown rejection with the
fallback table is silent. -/
theorem c3_failure_response_discipline_witness :
    (createStatsHandlerRun (β := Unit) hypixelGuildRankCooldowns
        ⟨fun u => if u = "Bob" then some 1500 else none, fun _ => false, fun _ => none⟩
        "Bob" "Carl" "Duels" (some "Elite") 2000
        ⟨.exn, .exn, false, 0, 0, 0, 0⟩).messages = [ChatMsg.cooldownNotice 30] ∧
    sendResponse true funBotGuildRankCooldowns
      (fun u => if u = "Bob" then some 1500 else none) "Bob" (some "Member") "Guild" 2000
      = ((fun u => if u = "Bob" then some 1500 else none), 0) := by
  constructor
  · exact c3_failure_response_discipline.2.1 Unit hypixelGuildRankCooldowns
      ⟨fun u => if u = "Bob" then some 1500 else none, fun _ => false, fun _ => none⟩
      "Bob" "Carl" "Duels" (some "Elite") 2000 ⟨.exn, .exn, false, 0, 0, 0, 0⟩ 30
      rfl (by decide) (by decide)
  · exact c3_failure_response_discipline.2.2.2.2.2.2 funBotGuildRankCooldowns
      (fun u => if u = "Bob" then some 1500 else none) "Bob" (some "Member") "Guild" 2000
      60 (by decide) (by decide)

/-! ### `OnlinePlayersTracker.updateOnlinePlayers` (part_001 lines 24–92)

The method registers a `'messagestr'` listener, triggers `/g online`, and
races the multi-line response against a 5-second `setTimeout`.  The listener
is a state machine folded over the incoming chat lines; its regex primitives
(other than the boundary test, which is a plain substring check for the
53-dash line) are opaque parse functions supplied as parameters, since the
claim concerns timing and listener lifecycle, not regex semantics.  Events
are the timed chat lines plus the single timeout firing at 5000 ms; lines
stamped before 5000 ms are delivered before the timeout, the rest after. -/

/-- JavaScript truthiness of a `string | null | undefined` value. -/
def jsTruthyStr : Option String → Bool
  | some r => r ≠ ""
  | none => false

/-- The `OnlinePlayersData` record; `players` is the rank-keyed object,
modelled as a total function with default `[]`. -/
structure OnlinePlayersData where
  players : String → List String
  onlineCount : Int
  totalCount : Int

/-- Internal collector variables of the listener closure (lines 32–35). -/
structure GListenerState where
  boundReceived : Nat
  currentGuildRank : Option String
  playerCount : Option String
  players : String → List String

/-- Abstracted regex primitives of the listener: the `guildRank` capture, the
`onlineMembers` capture, the `playerOnlineStatus` username captures of one
line, and `parseInt` on the captured count. -/
structure GOnlineParsers where
  guildRankExec : String → Option String
  onlineMembersExec : String → Option String
  playerMatches : String → List String
  parseIntFn : String → Int

/-- The 53-dash boundary line of the `bound` regex (line 18); `test` on a
regex with no metacharacters is substring containment. -/
def gBoundLine : String :=
  "-----------------------------------------------------"

/-- `players[rank] ??= []; players[rank]?.push(username)` for each non-empty
captured username (lines 57–64). -/
def gPushUsernames (players : String → List String) (rank : String)
    (us : List String) : String → List String :=
  us.foldl
    (fun ps u =>
      if u = "" then ps
      else fun k => if k = rank then ps k ++ [u] else ps k)
    players

/-- One listener invocation (lines 37–80).  Returns the updated collector
state and whether this invocation completed the collection
(`boundReceived >= 2` reached on a non-rank line). -/
def gListenerStep (P : GOnlineParsers) (ls : GListenerState) (m : String) :
    GListenerState × Bool :=
  let br := if strIncludes m gBoundLine then ls.boundReceived + 1 else ls.boundReceived
  if br = 0 then ({ ls with boundReceived := br }, false)
  else
    let pc := match ls.playerCount with
      | none => P.onlineMembersExec m
      | some p => some p
    let nr := P.guildRankExec m
    if jsTruthyStr nr then
      ({ boundReceived := br, currentGuildRank := nr, playerCount := pc,
         players := ls.players }, false)
    else
      let players' :=
        if 0 < br ∧ jsTruthyStr ls.currentGuildRank then
          gPushUsernames ls.players (ls.currentGuildRank.getD "") (P.playerMatches m)
        else ls.players
      ({ boundReceived := br, currentGuildRank := ls.currentGuildRank, playerCount := pc,
         players := players' }, br ≥ 2)

/-- `parseInt(playerCount || '0')` (line 70). -/
def gParseCount (P : GOnlineParsers) (pc : Option String) : Int :=
  match pc with
  | some p => if p ≠ "" then P.parseIntFn p else P.parseIntFn "0"
  | none => P.parseIntFn "0"

/-- State of one `updateOnlinePlayers` call: whether the `'messagestr'`
listener is still registered, whether (and with what) the promise has
resolved, the tracker's `lastUpdate` and `isUpdating` fields, and the
collector state. -/
structure GUpdateState where
  listenerOn : Bool
  resolved : Option OnlinePlayersData
  lastUpdate : OnlinePlayersData
  isUpdating : Bool
  ls : GListenerState

/-- Events observed by one call: a chat line, or the 5-second timeout firing. -/
inductive GEvent : Type
  | msg (m : String)
  | timeoutFires

/-- One event step.  A chat line is handled by the listener only while it is
registered; completion (lines 67–79) removes the listener, stores
`lastUpdate`, clears `isUpdating` and resolves.  The timeout callback
(lines 86–90) removes the listener, clears `isUpdating` and resolves with
`lastUpdate`; a promise resolves at most once. -/
def gUpdateStep (P : GOnlineParsers) (st : GUpdateState) (e : GEvent) : GUpdateState :=
  match e with
  | .timeoutFires =>
    { st with
      listenerOn := false
      isUpdating := false
      resolved := (match st.resolved with
        | some d => some d
        | none => some st.lastUpdate) }
  | .msg m =>
    if st.listenerOn then
      let step := gListenerStep P st.ls m
      if step.2 then
        let data : OnlinePlayersData :=
          ⟨step.1.players, gParseCount P step.1.playerCount, 0⟩
        { listenerOn := false
          resolved := (match st.resolved with
            | some d => some d
            | none => some data)
          lastUpdate := data
          isUpdating := false
          ls := step.1 }
      else { st with ls := step.1 }
    else st

/-- Initial state of one call on the non-short-circuited path (lines 29–35
and 82–83): `isUpdating := true`, fresh collector, listener registered. -/
def gUpdateInit (last : OnlinePlayersData) : GUpdateState :=
  { listenerOn := true, resolved := none, lastUpdate := last, isUpdating := true,
    ls := ⟨0, none, none, fun _ => []⟩ }

/-- The event sequence of one call for chat lines `msgs` stamped with arrival
times (ms since the call): lines arriving before the 5000 ms timeout, the
timeout, then the rest. -/
def gOnlineEvents (msgs : List (Int × String)) : List GEvent :=
  ((msgs.filter (fun p => p.1 < 5000)).map (fun p => GEvent.msg p.2)) ++
    [GEvent.timeoutFires] ++
    ((msgs.filter (fun p => ¬ p.1 < 5000)).map (fun p => GEvent.msg p.2))

/-- Folding the event steps from the initial state. -/
def runGOnline (P : GOnlineParsers) (last : OnlinePlayersData) (events : List GEvent) :
    GUpdateState :=
  events.foldl (gUpdateStep P) (gUpdateInit last)

/-- The lifecycle invariant: once resolved the listener is deregistered, and
until resolution the listener is registered and `lastUpdate` still holds the
value from before the call. -/
def GInv (last : OnlinePlayersData) (st : GUpdateState) : Prop :=
  (st.resolved.isSome → st.listenerOn = false) ∧
  (st.resolved = none → st.lastUpdate = last ∧ st.listenerOn = true)

theorem gUpdateStep_inv (P : GOnlineParsers) (last : OnlinePlayersData)
    (st : GUpdateState) (e : GEvent) (h : GInv last st) :
    GInv last (gUpdateStep P st e) := by
  obtain ⟨h1, h2⟩ := h
  cases e with
  | timeoutFires =>
    refine ⟨fun _ => rfl, fun hr => absurd hr ?_⟩
    cases hres : st.resolved <;> simp [gUpdateStep, hres]
  | msg m =>
    cases hl : st.listenerOn with
    | false =>
      have heq : gUpdateStep P st (GEvent.msg m) = st := by
        simp [gUpdateStep, hl]
      rw [heq]
      exact ⟨h1, h2⟩
    | true =>
      by_cases hc : (gListenerStep P st.ls m).2 = true
      · have heq : gUpdateStep P st (GEvent.msg m) =
            { listenerOn := false
              resolved := (match st.resolved with
                | some d => some d
                | none => some ⟨(gListenerStep P st.ls m).1.players,
                    gParseCount P (gListenerStep P st.ls m).1.playerCount, 0⟩)
              lastUpdate := ⟨(gListenerStep P st.ls m).1.players,
                gParseCount P (gListenerStep P st.ls m).1.playerCount, 0⟩
              isUpdating := false
              ls := (gListenerStep P st.ls m).1 } := by
          simp [gUpdateStep, hl, hc]
        rw [heq]
        refine ⟨fun _ => rfl, fun hr => absurd hr ?_⟩
        cases hres : st.resolved <;> simp [hres]
      · have heq : gUpdateStep P st (GEvent.msg m) =
            { st with ls := (gListenerStep P st.ls m).1 } := by
          simp [gUpdateStep, hl, hc]
        rw [heq]
        exact ⟨h1, h2⟩

theorem runFold_inv (P : GOnlineParsers) (last : OnlinePlayersData)
    (events : List GEvent) (st : GUpdateState) (h : GInv last st) :
    GInv last (events.foldl (gUpdateStep P) st) := by
  induction events generalizing st with
  | nil => exact h
  | cons e rest ih => exact ih _ (gUpdateStep_inv P last st e h)

/-- After the listener is deregistered, further chat lines change nothing. -/
theorem gMsgs_noop (P : GOnlineParsers) (ms : List GEvent) (st : GUpdateState)
    (h : st.listenerOn = false) (hm : ∀ e ∈ ms, e ≠ GEvent.timeoutFires) :
    ms.foldl (gUpdateStep P) st = st := by
  induction ms with
  | nil => rfl
  | cons e rest ih =>
    have he : e ≠ GEvent.timeoutFires := hm e (by simp)
    have heq : gUpdateStep P st e = st := by
      cases e with
      | timeoutFires => exact absurd rfl he
      | msg m => simp [gUpdateStep, h]
    simp only [List.foldl_cons, heq]
    exact ih (fun e' he' => hm e' (by simp [he']))

/-- The initial state of a call satisfies the lifecycle invariant. -/
theorem gUpdateInit_inv (last : OnlinePlayersData) : GInv last (gUpdateInit last) := by
  constructor
  · intro h
    simp [gUpdateInit] at h
  · intro _
    exact ⟨rfl, rfl⟩

/-- C9: for every call to `updateOnlinePlayers` (with arbitrary parse
primitives, previous data, and timed chat lines) the wait is raced against
the fixed 5-second timeout: after all events the promise has resolved and the
`'messagestr'` listener is deregistered; at every intermediate point, if the
promise has resolved the listener is already deregistered (it is removed on
the completion path and on the timeout path, so no listener outlives the
call); and if the collection did not complete before the timeout, the promise
resolves with the last known data as a fallback. -/
theorem c9_timeout_race (P : GOnlineParsers) (last : OnlinePlayersData)
    (msgs : List (Int × String)) :
    (runGOnline P last (gOnlineEvents msgs)).resolved.isSome = true ∧
    (runGOnline P last (gOnlineEvents msgs)).listenerOn = false ∧
    (∀ n : Nat,
       (runGOnline P last ((gOnlineEvents msgs).take n)).resolved.isSome = true →
       (runGOnline P last ((gOnlineEvents msgs).take n)).listenerOn = false) ∧
    ((runGOnline P last
         ((msgs.filter (fun p => p.1 < 5000)).map (fun p => GEvent.msg p.2))).resolved
       = none →
     (runGOnline P last (gOnlineEvents msgs)).resolved = some last) := by
  have hsplit : gOnlineEvents msgs =
      ((msgs.filter (fun p => p.1 < 5000)).map (fun p => GEvent.msg p.2)) ++
        ([GEvent.timeoutFires] ++
          ((msgs.filter (fun p => ¬ p.1 < 5000)).map (fun p => GEvent.msg p.2))) := by
    simp [gOnlineEvents]
  have hfinal : runGOnline P last (gOnlineEvents msgs) =
      ((msgs.filter (fun p => ¬ p.1 < 5000)).map (fun p => GEvent.msg p.2)).foldl
        (gUpdateStep P)
        (gUpdateStep P
          (runGOnline P last ((msgs.filter (fun p => p.1 < 5000)).map
            (fun p => GEvent.msg p.2)))
          GEvent.timeoutFires) := by
    rw [runGOnline, hsplit, List.foldl_append, List.foldl_append]
    rfl
  have hTOff : (gUpdateStep P
      (runGOnline P last ((msgs.filter (fun p => p.1 < 5000)).map
        (fun p => GEvent.msg p.2)))
      GEvent.timeoutFires).listenerOn = false := rfl
  have hnoop : runGOnline P last (gOnlineEvents msgs) =
      gUpdateStep P
        (runGOnline P last ((msgs.filter (fun p => p.1 < 5000)).map
          (fun p => GEvent.msg p.2)))
        GEvent.timeoutFires := by
    rw [hfinal]
    refine gMsgs_noop P _ _ hTOff ?_
    intro e he
    simp only [List.mem_map] at he
    obtain ⟨a, _, rfl⟩ := he
    simp
  refine ⟨?_, ?_, ?_, ?_⟩
  · rw [hnoop]
    cases hres : (runGOnline P last ((msgs.filter (fun p => p.1 < 5000)).map
        (fun p => GEvent.msg p.2))).resolved <;>
      simp [gUpdateStep, hres]
  · rw [hnoop]
    exact hTOff
  · intro n
    exact (runFold_inv P last ((gOnlineEvents msgs).take n) _ (gUpdateInit_inv last)).1
  · intro hnone
    have hlast : (runGOnline P last ((msgs.filter (fun p => p.1 < 5000)).map
        (fun p => GEvent.msg p.2))).lastUpdate = last :=
      ((runFold_inv P last _ _ (gUpdateInit_inv last)).2 hnone).1
    rw [hnoop]
    simp [gUpdateStep, hnone, hlast]

/-- Witness for C9: with no chat lines at all, the call times out, the
listener is deregistered and the promise resolves with the previous data. -/
theorem c9_timeout_race_witness :
    (runGOnline ⟨fun _ => none, fun _ => none, fun _ => [], fun _ => 0⟩
        ⟨fun _ => [], 5, 10⟩ (gOnlineEvents [])).resolved = some ⟨fun _ => [], 5, 10⟩ ∧
    (runGOnline ⟨fun _ => none, fun _ => none, fun _ => [], fun _ => 0⟩
        ⟨fun _ => [], 5, 10⟩ (gOnlineEvents [])).listenerOn = false := by
  have h := c9_timeout_race ⟨fun _ => none, fun _ => none, fun _ => [], fun _ => 0⟩
    ⟨fun _ => [], 5, 10⟩ []
  exact ⟨h.2.2.2 rfl, h.2.1⟩
